import Mathlib

/-!
# wacli IPC command-delegation protocol: a verified shallow embedding

This development embeds the core of the `wacli` repository's inter-process
command-delegation protocol in Lean 4 and proves (or refutes) the frozen
claims about it.

Embedded source, file by file:
* `internal/ipc/ipc.go` — `Request`, `Response`, `SendTextResult`,
  `Server.processRequest`, `Server.handleConn` (the response-producing
  paths), `Server.Stop`, `SocketPath`, `Client.IsAvailable`,
  `Client.SendText` (and the error-only helpers `Client.DeleteMessage`,
  `Client.ChatState`).
* `cmd/wacli` command files — the fallback-coordinator pattern of
  `newSendTextCmd`, `newDeleteMessageCmd`, `newChatStateCmd` (the
  try-IPC-then-direct path decision).
* the daemon-side `syncHandler.ChatState` action dispatch.
* `internal/app` chat-state mirror operations `ArchiveChat`, `PinChat`,
  `MuteChat`, `MarkChatRead`.

Go effects are modelled explicitly: JSON `any` values become the
`JSONValue` tree, fallible collaborator calls become `Except String`
valued functions supplied as parameters, cache writes become an explicit
trace, and the filesystem (for the socket file) becomes a predicate on
paths.
-/

namespace Wacli

/-- A JSON value tree: the shallow embedding of what Go's `encoding/json`
produces for an `any` field after decoding, and of what `json.Marshal`
consumes. -/
inductive JSONValue where
  | null
  | bool (b : Bool)
  | num (n : Int)
  | str (s : String)
  | arr (elems : List JSONValue)
  | obj (fields : List (String × JSONValue))

/-- `Request` from `internal/ipc/ipc.go` (lines 22–33). All fields but
`command` carry `omitempty`, so the zero value ("" / false) stands for an
absent field. -/
structure Request where
  command : String
  «to» : String := ""
  message : String := ""
  file : String := ""
  caption : String := ""
  chat : String := ""
  msgID : String := ""
  forEveryone : Bool := false
  action : String := ""
  duration : String := ""
deriving Repr, DecidableEq

/-- `Response` from `internal/ipc/ipc.go` (lines 36–40). `Error` carries
`omitempty`, so the empty string is the absent error; `Data` is `any`
with `omitempty`, modelled as `Option JSONValue` with `none` for absent. -/
structure Response where
  success : Bool
  error : String := ""
  data : Option JSONValue := none

/-- `SendTextResult` from `internal/ipc/ipc.go` (lines 43–46). -/
structure SendTextResult where
  «to» : String
  msgID : String
deriving Repr, DecidableEq

/-- The abstract `Handler` interface (`internal/ipc/ipc.go` lines 49–53).
Each Go method returning `(T, error)` becomes an `Except String T` valued
function: `.error e` stands for a non-nil Go error whose `Error()` is `e`. -/
structure HandlerModel where
  sendText : String → String → Except String String
  deleteMessage : String → String → Bool → Except String Unit
  chatState : String → String → String → Except String Unit

/-- One invocation of a `Handler` operation, recorded by the instrumented
dispatcher so that "the Handler is never invoked" is a statement about a
trace. -/
inductive HandlerCall where
  | sendText («to» message : String)
  | deleteMessage (chat msgID : String) (forEveryone : Bool)
  | chatState (jid action duration : String)
deriving Repr, DecidableEq

/-- `Server.processRequest` (`internal/ipc/ipc.go` lines 161–208),
instrumented with the list of `Handler` invocations it performs. The
`Response` component mirrors the source switch branch by branch; the trace
component records exactly the handler calls the source makes on that
branch. -/
def processRequest (h : HandlerModel) (req : Request) : Response × List HandlerCall :=
  if req.command = "ping" then
    ({ success := true, data := some (.str "pong") }, [])
  else if req.command = "send_text" then
    if req.«to» = "" ∨ req.message = "" then
      ({ success := false, error := "to and message are required" }, [])
    else
      match h.sendText req.«to» req.message with
      | .error e => ({ success := false, error := e }, [.sendText req.«to» req.message])
      | .ok msgID =>
        ({ success := true,
           data := some (.obj [("to", .str req.«to»), ("msg_id", .str msgID)]) },
         [.sendText req.«to» req.message])
  else if req.command = "delete_message" then
    if req.chat = "" ∨ req.msgID = "" then
      ({ success := false, error := "chat and msg_id are required" }, [])
    else
      match h.deleteMessage req.chat req.msgID req.forEveryone with
      | .error e =>
        ({ success := false, error := e }, [.deleteMessage req.chat req.msgID req.forEveryone])
      | .ok _ =>
        ({ success := true,
           data := some (.obj [("deleted", .bool true), ("chat", .str req.chat),
                               ("msg_id", .str req.msgID),
                               ("for_everyone", .bool req.forEveryone)]) },
         [.deleteMessage req.chat req.msgID req.forEveryone])
  else if req.command = "chat_state" then
    if req.chat = "" ∨ req.action = "" then
      ({ success := false, error := "chat and action are required" }, [])
    else
      match h.chatState req.chat req.action req.duration with
      | .error e =>
        ({ success := false, error := e }, [.chatState req.chat req.action req.duration])
      | .ok _ =>
        ({ success := true,
           data := some (.obj [("action", .str req.action), ("jid", .str req.chat),
                               ("ok", .bool true)]) },
         [.chatState req.chat req.action req.duration])
  else
    ({ success := false, error := "unknown command: " ++ req.command }, [])

/-- A concrete handler whose operations always succeed, used to evaluate
theorems at concrete inputs. -/
def okHandler : HandlerModel where
  sendText := fun _ _ => .ok "ABC123"
  deleteMessage := fun _ _ _ => .ok ()
  chatState := fun _ _ _ => .ok ()

/-- C8: `ping` always answers `{success:true, data:"pong"}`, for any
handler and any other request fields, invoking no handler operation. -/
theorem ping_always_pong (h : HandlerModel) (req : Request)
    (hc : req.command = "ping") :
    processRequest h req =
      ({ success := true, error := "", data := some (.str "pong") }, []) := by
  simp [processRequest, hc]

/-- Witness for `ping_always_pong` at a concrete request carrying extra
fields and an arbitrary concrete handler. -/
theorem ping_always_pong_witness :
    processRequest okHandler { command := "ping", «to» := "4915112345678" } =
      ({ success := true, error := "", data := some (.str "pong") }, []) :=
  ping_always_pong okHandler { command := "ping", «to» := "4915112345678" } rfl

/-- C2: `send_text` dispatch. An empty recipient or empty body yields the
validation failure with no handler call; otherwise exactly
`SendText(to, message)` is invoked, and a nil handler error yields
`success=true` with data `{to, msg_id}`. -/
theorem sendText_dispatch (h : HandlerModel) (req : Request)
    (hc : req.command = "send_text") :
    (req.«to» = "" ∨ req.message = "" →
      processRequest h req =
        ({ success := false, error := "to and message are required", data := none }, []))
    ∧ (req.«to» ≠ "" → req.message ≠ "" →
        (processRequest h req).2 = [.sendText req.«to» req.message]
        ∧ ∀ msgID, h.sendText req.«to» req.message = .ok msgID →
            (processRequest h req).1 =
              { success := true, error := "",
                data := some (.obj [("to", .str req.«to»), ("msg_id", .str msgID)]) }) := by
  refine ⟨fun hempty => ?_, fun hto hmsg => ?_⟩
  · rcases hempty with h1 | h1 <;> simp [processRequest, hc, h1]
  · constructor
    · simp only [processRequest, hc]
      cases hsend : h.sendText req.«to» req.message <;> simp [hto, hmsg, hsend]
    · intro msgID hsend
      simp [processRequest, hc, hto, hmsg, hsend]

/-- Witness for `sendText_dispatch`: a request missing `message` fails
validation without a handler call, and a complete request succeeds with
the echoed recipient and generated id. -/
theorem sendText_dispatch_witness :
    processRequest okHandler { command := "send_text", «to» := "4915112345678" } =
      ({ success := false, error := "to and message are required", data := none }, [])
    ∧ (processRequest okHandler
        { command := "send_text", «to» := "4915112345678", message := "hi" }).1 =
      { success := true, error := "",
        data := some (.obj [("to", .str "4915112345678"), ("msg_id", .str "ABC123")]) } := by
  constructor
  · exact (sendText_dispatch okHandler
      { command := "send_text", «to» := "4915112345678" } rfl).1 (Or.inr rfl)
  · exact ((sendText_dispatch okHandler
      { command := "send_text", «to» := "4915112345678", message := "hi" } rfl).2
      (by simp) (by simp)).2 "ABC123" rfl

/-- C4: an unrecognized command yields a failure response whose error text
contains the command string, and no handler call is made. -/
theorem unknown_command_rejected (h : HandlerModel) (req : Request)
    (h1 : req.command ≠ "ping") (h2 : req.command ≠ "send_text")
    (h3 : req.command ≠ "delete_message") (h4 : req.command ≠ "chat_state") :
    processRequest h req =
      ({ success := false, error := "unknown command: " ++ req.command, data := none }, [])
    ∧ ∃ s t, "unknown command: " ++ req.command = s ++ req.command ++ t := by
  refine ⟨by simp [processRequest, h1, h2, h3, h4], "unknown command: ", "", ?_⟩
  simp

/-- Witness for `unknown_command_rejected` at `command="bogus"`: the
response is `{success:false, error:"unknown command: bogus"}` and the
trace is empty. -/
theorem unknown_command_rejected_witness :
    processRequest okHandler { command := "bogus" } =
      ({ success := false, error := "unknown command: bogus", data := none }, []) := by
  have h := (unknown_command_rejected okHandler { command := "bogus" }
    (by decide) (by decide) (by decide) (by decide)).1
  simpa using h

/-! ## Connection handling and the response shape invariant -/

/-- The outcome of the read/decode phase of `Server.handleConn`
(`internal/ipc/ipc.go` lines 131–159), abstracting the socket: either the
line read failed, or the line did not decode as a `Request`, or a request
was decoded (and, possibly, handling it panicked, which the deferred
recover converts into a response). -/
inductive ConnEvent where
  | readFailure (msg : String)
  | decodeFailure (msg : String)
  | request (req : Request)
  | panicRecovered (msg : String)

/-- The single `Response` that `Server.handleConn` writes back for a
connection event: the error strings mirror the `fmt.Sprintf` formats of
the source (`"read error: %v"`, `"invalid request: %v"`,
`"internal error: %v"`), and a decoded request goes through
`processRequest`. -/
def handleConnResponse (h : HandlerModel) (ev : ConnEvent) : Response :=
  match ev with
  | .readFailure msg => { success := false, error := "read error: " ++ msg }
  | .decodeFailure msg => { success := false, error := "invalid request: " ++ msg }
  | .request req => (processRequest h req).1
  | .panicRecovered msg => { success := false, error := "internal error: " ++ msg }

/-- The spec's response shape invariant: `error` present (non-empty) iff
failed, `data` present iff succeeded. -/
def respShapeOK (r : Response) : Prop :=
  (r.success = false → r.error ≠ "" ∧ r.data = none) ∧
  (r.success = true → r.error = "" ∧ r.data ≠ none)

lemma append_left_ne_empty (s t : String) (h : s ≠ "") : s ++ t ≠ "" := by
  intro he
  apply h
  have hd := congrArg String.data he
  rw [String.data_append] at hd
  rcases List.append_eq_nil.mp hd with ⟨h1, _⟩
  cases s
  simp_all

/-- A handler whose operations fail with an error whose message is empty
(in Go: a non-nil `error` with `Error() == ""`). -/
def emptyErrHandler : HandlerModel where
  sendText := fun _ _ => .error ""
  deleteMessage := fun _ _ _ => .error ""
  chatState := fun _ _ _ => .error ""

/-- C3 counterexample: the shape invariant as claimed — over every
response the server produces, for an arbitrary `Handler` — is false: a
handler error with an empty message is copied verbatim by the dispatcher
(`Error: err.Error()`), producing `success=false` with an empty (hence,
under `omitempty`, absent) error string. -/
theorem respShape_counterexample :
    ¬ (∀ (h : HandlerModel) (ev : ConnEvent), respShapeOK (handleConnResponse h ev)) := by
  intro hall
  have hbad := (hall emptyErrHandler
    (.request { command := "send_text", «to» := "a", message := "b" })).1
  have hresp : handleConnResponse emptyErrHandler
      (.request { command := "send_text", «to» := "a", message := "b" }) =
      { success := false, error := "", data := none } := by
    simp [handleConnResponse, processRequest, emptyErrHandler]
  rw [hresp] at hbad
  exact (hbad rfl).1 rfl

/-- C3 amended: every response the server produces — dispatcher result,
read failure, decode failure, or recovered panic — satisfies the shape
invariant, provided every error the `Handler` reports carries a non-empty
message. -/
theorem responses_wellshaped (h : HandlerModel) (ev : ConnEvent)
    (hs : ∀ a b e, h.sendText a b = .error e → e ≠ "")
    (hd : ∀ a b c e, h.deleteMessage a b c = .error e → e ≠ "")
    (hc : ∀ a b c e, h.chatState a b c = .error e → e ≠ "") :
    respShapeOK (handleConnResponse h ev) := by
  cases ev with
  | readFailure msg =>
    exact ⟨fun _ => ⟨append_left_ne_empty _ _ (by decide), rfl⟩, by simp [handleConnResponse]⟩
  | decodeFailure msg =>
    exact ⟨fun _ => ⟨append_left_ne_empty _ _ (by decide), rfl⟩, by simp [handleConnResponse]⟩
  | panicRecovered msg =>
    exact ⟨fun _ => ⟨append_left_ne_empty _ _ (by decide), rfl⟩, by simp [handleConnResponse]⟩
  | request req =>
    show respShapeOK (processRequest h req).1
    by_cases h1 : req.command = "ping"
    · simp [respShapeOK, processRequest, h1]
    by_cases h2 : req.command = "send_text"
    · by_cases hv : req.«to» = "" ∨ req.message = ""
      · rcases hv with hv | hv <;> simp [respShapeOK, processRequest, h1, h2, hv]
      · push_neg at hv
        cases hres : h.sendText req.«to» req.message with
        | error e =>
          simpa [respShapeOK, processRequest, h1, h2, hv.1, hv.2, hres] using
            hs _ _ _ hres
        | ok msgID => simp [respShapeOK, processRequest, h1, h2, hv.1, hv.2, hres]
    by_cases h3 : req.command = "delete_message"
    · by_cases hv : req.chat = "" ∨ req.msgID = ""
      · rcases hv with hv | hv <;> simp [respShapeOK, processRequest, h1, h2, h3, hv]
      · push_neg at hv
        cases hres : h.deleteMessage req.chat req.msgID req.forEveryone with
        | error e =>
          simpa [respShapeOK, processRequest, h1, h2, h3, hv.1, hv.2, hres] using
            hd _ _ _ _ hres
        | ok u => simp [respShapeOK, processRequest, h1, h2, h3, hv.1, hv.2, hres]
    by_cases h4 : req.command = "chat_state"
    · by_cases hv : req.chat = "" ∨ req.action = ""
      · rcases hv with hv | hv <;> simp [respShapeOK, processRequest, h1, h2, h3, h4, hv]
      · push_neg at hv
        cases hres : h.chatState req.chat req.action req.duration with
        | error e =>
          simpa [respShapeOK, processRequest, h1, h2, h3, h4, hv.1, hv.2, hres] using
            hc _ _ _ _ hres
        | ok u => simp [respShapeOK, processRequest, h1, h2, h3, h4, hv.1, hv.2, hres]
    · refine ⟨fun _ => ⟨?_, ?_⟩, ?_⟩ <;>
        simp [respShapeOK, processRequest, h1, h2, h3, h4]
      exact append_left_ne_empty _ _ (by decide)

/-- Witness for `responses_wellshaped` at a concrete handler (whose
operations never report an empty error) and a concrete event. -/
theorem responses_wellshaped_witness :
    respShapeOK (handleConnResponse okHandler (.request { command := "ping" })) :=
  responses_wellshaped okHandler (.request { command := "ping" })
    (fun a b e he => by simp [okHandler] at he)
    (fun a b c e he => by simp [okHandler] at he)
    (fun a b c e he => by simp [okHandler] at he)

/-! ## Socket path, Stop, and IsAvailable -/

/-- `SocketPath` (`internal/ipc/ipc.go` lines 74–76):
`filepath.Join(storeDir, "wacli.sock")`. For the store directories the
program passes (absolute, cleaned, no trailing separator) `filepath.Join`
is plain concatenation with one separator. -/
def socketPathOf (storeDir : String) : String := storeDir ++ "/" ++ "wacli.sock"

/-- The filesystem fragment this subsystem touches, as a predicate giving
each path's existence. -/
def FileSys : Type := String → Bool

/-- The filesystem effect of `Server.Stop` (`internal/ipc/ipc.go` lines
98–105): after signalling shutdown and waiting for in-flight handlers,
`os.Remove(SocketPath(s.storeDir))` — the socket file ceases to exist. -/
def serverStopFS (storeDir : String) (fs : FileSys) : FileSys :=
  fun p => if p = socketPathOf storeDir then false else fs p

/-- `Client.IsAvailable` (`internal/ipc/ipc.go` lines 228–232):
`os.Stat(SocketPath(c.storeDir))` succeeds iff the socket file exists. -/
def isAvailable (storeDir : String) (fs : FileSys) : Bool :=
  fs (socketPathOf storeDir)

/-- C6: after `Stop()` the socket file no longer exists at the socket
path, and `IsAvailable()` on a client for the same store directory is
false. -/
theorem stop_removes_socket_and_unavailable (storeDir : String) (fs : FileSys) :
    serverStopFS storeDir fs (socketPathOf storeDir) = false
    ∧ isAvailable storeDir (serverStopFS storeDir fs) = false := by
  constructor <;> simp [serverStopFS, isAvailable]

/-! ## The daemon-side concrete handler: syncHandler.ChatState -/

/-- The collaborators `syncHandler.ChatState` consults, as explicit
parameters: the app/WA liveness checks, JID parsing, `time.ParseDuration`
(durations in nanoseconds, as Go's `time.Duration`), and the four `App`
chat-state operations it delegates to. -/
structure SyncEnv where
  appInitialized : Bool
  waInitialized : Bool
  connected : Bool
  parseJID : String → Except String String
  parseDuration : String → Except String Int
  archiveChat : String → Bool → Except String Unit
  pinChat : String → Bool → Except String Unit
  muteChat : String → Bool → Int → Except String Unit
  markChatRead : String → Bool → Except String Unit

/-- `syncHandler.ChatState` (daemon command file, lines 767–813): the
liveness preamble, JID parsing, then the action switch; `mute` alone
parses the duration string (an empty duration means zero). -/
def syncChatState (env : SyncEnv) (jid action duration : String) : Except String Unit :=
  if env.appInitialized = false then .error "app not initialized"
  else if env.waInitialized = false then .error "whatsapp client not initialized"
  else if env.connected = false then .error "whatsapp not connected"
  else
    match env.parseJID jid with
    | .error e => .error ("parse jid: " ++ e)
    | .ok chatJID =>
      if action = "archive" then env.archiveChat chatJID true
      else if action = "unarchive" then env.archiveChat chatJID false
      else if action = "pin" then env.pinChat chatJID true
      else if action = "unpin" then env.pinChat chatJID false
      else if action = "mute" then
        if duration = "" then env.muteChat chatJID true 0
        else
          match env.parseDuration duration with
          | .error e => .error ("invalid duration: " ++ e)
          | .ok dur => env.muteChat chatJID true dur
      else if action = "unmute" then env.muteChat chatJID false 0
      else if action = "mark-read" then env.markChatRead chatJID true
      else if action = "mark-unread" then env.markChatRead chatJID false
      else .error ("unknown chat state action: " ++ action)

/-- The eight actions `syncHandler.ChatState` accepts. -/
def chatStateActions : List String :=
  ["archive", "unarchive", "pin", "unpin", "mute", "unmute", "mark-read", "mark-unread"]

/-- C5: with the liveness preamble passing and the chat JID parsing, the
action vocabulary is exactly the eight listed actions — each delegating to
the corresponding `App` operation — any other action fails naming it, and
the duration argument is consulted only by `mute` (an unparsable duration
fails only `mute`; every other action's result is duration-independent). -/
theorem chatState_action_vocabulary (env : SyncEnv) (jid action d d₁ d₂ : String)
    (chatJID : String)
    (h1 : env.appInitialized = true) (h2 : env.waInitialized = true)
    (h3 : env.connected = true) (hj : env.parseJID jid = .ok chatJID) :
    (action ∉ chatStateActions →
      syncChatState env jid action d = .error ("unknown chat state action: " ++ action))
    ∧ (action ≠ "mute" → syncChatState env jid action d₁ = syncChatState env jid action d₂)
    ∧ (∀ e, d ≠ "" → env.parseDuration d = .error e →
        syncChatState env jid "mute" d = .error ("invalid duration: " ++ e))
    ∧ syncChatState env jid "archive" d = env.archiveChat chatJID true
    ∧ syncChatState env jid "unarchive" d = env.archiveChat chatJID false
    ∧ syncChatState env jid "pin" d = env.pinChat chatJID true
    ∧ syncChatState env jid "unpin" d = env.pinChat chatJID false
    ∧ (d = "" → syncChatState env jid "mute" d = env.muteChat chatJID true 0)
    ∧ (∀ n, env.parseDuration d = .ok n → d ≠ "" →
        syncChatState env jid "mute" d = env.muteChat chatJID true n)
    ∧ syncChatState env jid "unmute" d = env.muteChat chatJID false 0
    ∧ syncChatState env jid "mark-read" d = env.markChatRead chatJID true
    ∧ syncChatState env jid "mark-unread" d = env.markChatRead chatJID false := by
  refine ⟨fun hmem => ?_, fun hmute => ?_, fun e hd hpd => ?_, ?_, ?_, ?_, ?_,
    fun hd => ?_, fun n hpd hd => ?_, ?_, ?_, ?_⟩
  · simp only [chatStateActions, List.mem_cons, List.not_mem_nil, or_false, not_or] at hmem
    obtain ⟨ha1, ha2, ha3, ha4, ha5, ha6, ha7, ha8⟩ := hmem
    simp [syncChatState, h1, h2, h3, hj, ha1, ha2, ha3, ha4, ha5, ha6, ha7, ha8]
  · by_cases ha1 : action = "archive"
    · simp [syncChatState, h1, h2, h3, hj, ha1]
    by_cases ha2 : action = "unarchive"
    · simp [syncChatState, h1, h2, h3, hj, ha1, ha2]
    by_cases ha3 : action = "pin"
    · simp [syncChatState, h1, h2, h3, hj, ha1, ha2, ha3]
    by_cases ha4 : action = "unpin"
    · simp [syncChatState, h1, h2, h3, hj, ha1, ha2, ha3, ha4]
    by_cases ha5 : action = "unmute"
    · simp [syncChatState, h1, h2, h3, hj, ha1, ha2, ha3, ha4, hmute, ha5]
    by_cases ha6 : action = "mark-read"
    · simp [syncChatState, h1, h2, h3, hj, ha1, ha2, ha3, ha4, hmute, ha5, ha6]
    by_cases ha7 : action = "mark-unread"
    · simp [syncChatState, h1, h2, h3, hj, ha1, ha2, ha3, ha4, hmute, ha5, ha6, ha7]
    · simp [syncChatState, h1, h2, h3, hj, ha1, ha2, ha3, ha4, hmute, ha5, ha6, ha7]
  · simp [syncChatState, h1, h2, h3, hj, hd, hpd]
  · simp [syncChatState, h1, h2, h3, hj]
  · simp [syncChatState, h1, h2, h3, hj]
  · simp [syncChatState, h1, h2, h3, hj]
  · simp [syncChatState, h1, h2, h3, hj]
  · simp [syncChatState, h1, h2, h3, hj, hd]
  · simp [syncChatState, h1, h2, h3, hj, hd, hpd]
  · simp [syncChatState, h1, h2, h3, hj]
  · simp [syncChatState, h1, h2, h3, hj]
  · simp [syncChatState, h1, h2, h3, hj]

/-- A concrete environment for evaluating `syncChatState`: live daemon,
identity JID parsing, a duration parser that accepts only `"8h"`. -/
def liveSyncEnv : SyncEnv where
  appInitialized := true
  waInitialized := true
  connected := true
  parseJID := fun s => .ok s
  parseDuration := fun s => if s = "8h" then .ok 28800000000000 else .error ("time: invalid duration " ++ s)
  archiveChat := fun _ _ => .ok ()
  pinChat := fun _ _ => .ok ()
  muteChat := fun _ _ _ => .ok ()
  markChatRead := fun _ _ => .ok ()

/-- Witness for `chatState_action_vocabulary`: an unknown action is
rejected by name, and an unparsable duration fails `mute` but not
`archive`. -/
theorem chatState_action_vocabulary_witness :
    syncChatState liveSyncEnv "c@s.whatsapp.net" "star" "" =
      .error "unknown chat state action: star"
    ∧ syncChatState liveSyncEnv "c@s.whatsapp.net" "mute" "soon" =
      .error "invalid duration: time: invalid duration soon"
    ∧ syncChatState liveSyncEnv "c@s.whatsapp.net" "archive" "soon" = .ok () := by
  have h := chatState_action_vocabulary liveSyncEnv "c@s.whatsapp.net" "star" "soon" "" ""
    "c@s.whatsapp.net" rfl rfl rfl rfl
  have h2 := chatState_action_vocabulary liveSyncEnv "c@s.whatsapp.net" "archive" "soon" "" ""
    "c@s.whatsapp.net" rfl rfl rfl rfl
  refine ⟨?_, ?_, ?_⟩
  · have := (chatState_action_vocabulary liveSyncEnv "c@s.whatsapp.net" "star" "" "" ""
      "c@s.whatsapp.net" rfl rfl rfl rfl).1 (by decide)
    simpa using this
  · have := (h.2.2.1) "time: invalid duration soon" (by decide)
      (by simp [liveSyncEnv])
    simpa using this
  · have := h2.2.2.2.1
    simpa [liveSyncEnv] using this

/-! ## App chat-state mirror operations -/

/-- The collaborators of the `App` chat-state mirror operations
(`internal/app` chat-state file): the four session (`a.wa`) operations and
the four cache (`a.db`) setters they mirror into, each fallible. -/
structure ChatOps where
  waArchiveChat : String → Bool → Except String Unit
  waPinChat : String → Bool → Except String Unit
  waMuteChat : String → Bool → Int → Except String Unit
  waMarkChatAsRead : String → Bool → Except String Unit
  dbSetChatArchived : String → Bool → Except String Unit
  dbSetChatPinned : String → Bool → Except String Unit
  dbSetChatMutedUntil : String → Int → Except String Unit
  dbSetChatUnread : String → Bool → Except String Unit

/-- One write into the local cache, recorded as a trace event. -/
inductive CacheWrite where
  | setChatArchived (jid : String) (archived : Bool)
  | setChatPinned (jid : String) (pinned : Bool)
  | setChatMutedUntil (jid : String) (mutedUntil : Int)
  | setChatUnread (jid : String) (unread : Bool)
deriving Repr, DecidableEq

/-- `App.ArchiveChat`: session archive first; only on its success the
cache `SetChatArchived` write (returned with the write recorded). -/
def archiveChatApp (o : ChatOps) (jid : String) (archive : Bool) :
    Except String Unit × List CacheWrite :=
  match o.waArchiveChat jid archive with
  | .error e => (.error e, [])
  | .ok _ => (o.dbSetChatArchived jid archive, [.setChatArchived jid archive])

/-- `App.PinChat`: session pin first, then the cache `SetChatPinned`. -/
def pinChatApp (o : ChatOps) (jid : String) (pin : Bool) :
    Except String Unit × List CacheWrite :=
  match o.waPinChat jid pin with
  | .error e => (.error e, [])
  | .ok _ => (o.dbSetChatPinned jid pin, [.setChatPinned jid pin])

/-- `App.MuteChat`: session mute first; on success the cached
`muted_until` value is `-1` for an indefinite mute (`duration <= 0`),
`now+duration` otherwise, and `0` on unmute. -/
def muteChatApp (o : ChatOps) (now : Int) (jid : String) (mute : Bool) (duration : Int) :
    Except String Unit × List CacheWrite :=
  match o.waMuteChat jid mute duration with
  | .error e => (.error e, [])
  | .ok _ =>
    let mu : Int := if mute then (if duration ≤ 0 then -1 else now + duration) else 0
    (o.dbSetChatMutedUntil jid mu, [.setChatMutedUntil jid mu])

/-- `App.MarkChatRead`: session mark-as-read first, then the cache
`SetChatUnread` with the negated flag. -/
def markChatReadApp (o : ChatOps) (jid : String) (read : Bool) :
    Except String Unit × List CacheWrite :=
  match o.waMarkChatAsRead jid read with
  | .error e => (.error e, [])
  | .ok _ => (o.dbSetChatUnread jid (!read), [.setChatUnread jid (!read)])

/-- Atomicity of a mirror operation with respect to the cache: a failed
session call propagates its error with no cache write, and any cache
write implies the session call succeeded. -/
def atomicMirror (waResult : Except String Unit)
    (result : Except String Unit × List CacheWrite) : Prop :=
  (∀ e, waResult = .error e → result = (.error e, [])) ∧
  (result.2 ≠ [] → waResult = .ok ())

/-- C9: each of `ArchiveChat`, `PinChat`, `MuteChat`, `MarkChatRead` is
atomic with respect to the local cache — the cached field is written only
after the session operation succeeds, and a session failure returns that
error with no write. -/
theorem chat_mirror_atomic (o : ChatOps) (now duration : Int) (jid : String)
    (b₁ b₂ b₃ b₄ : Bool) :
    atomicMirror (o.waArchiveChat jid b₁) (archiveChatApp o jid b₁)
    ∧ atomicMirror (o.waPinChat jid b₂) (pinChatApp o jid b₂)
    ∧ atomicMirror (o.waMuteChat jid b₃ duration) (muteChatApp o now jid b₃ duration)
    ∧ atomicMirror (o.waMarkChatAsRead jid b₄) (markChatReadApp o jid b₄) := by
  refine ⟨⟨fun e he => ?_, fun hw => ?_⟩, ⟨fun e he => ?_, fun hw => ?_⟩,
    ⟨fun e he => ?_, fun hw => ?_⟩, ⟨fun e he => ?_, fun hw => ?_⟩⟩
  · simp [archiveChatApp, he]
  · cases hr : o.waArchiveChat jid b₁ with
    | error e => simp [archiveChatApp, hr] at hw
    | ok u => cases u; rfl
  · simp [pinChatApp, he]
  · cases hr : o.waPinChat jid b₂ with
    | error e => simp [pinChatApp, hr] at hw
    | ok u => cases u; rfl
  · simp [muteChatApp, he]
  · cases hr : o.waMuteChat jid b₃ duration with
    | error e => simp [muteChatApp, hr] at hw
    | ok u => cases u; rfl
  · simp [markChatReadApp, he]
  · cases hr : o.waMarkChatAsRead jid b₄ with
    | error e => simp [markChatReadApp, hr] at hw
    | ok u => cases u; rfl

/-- Chat operations whose session half always fails, to evaluate the
atomicity theorem at a concrete failing input. -/
def failingSessionOps : ChatOps where
  waArchiveChat := fun _ _ => .error "websocket disconnected"
  waPinChat := fun _ _ => .error "websocket disconnected"
  waMuteChat := fun _ _ _ => .error "websocket disconnected"
  waMarkChatAsRead := fun _ _ => .error "websocket disconnected"
  dbSetChatArchived := fun _ _ => .ok ()
  dbSetChatPinned := fun _ _ => .ok ()
  dbSetChatMutedUntil := fun _ _ => .ok ()
  dbSetChatUnread := fun _ _ => .ok ()

/-- Witness for `chat_mirror_atomic`: a failed session archive returns the
session error and performs no cache write. -/
theorem chat_mirror_atomic_witness :
    archiveChatApp failingSessionOps "c@s.whatsapp.net" true =
      (.error "websocket disconnected", []) :=
  (chat_mirror_atomic failingSessionOps 0 0 "c@s.whatsapp.net"
    true true true true).1.1 "websocket disconnected" rfl

/-! ## Client proxy helpers -/

/-- What `Client.send` hands back to a typed helper: a transport failure
(dial/write/read/decode error, before any response was obtained) or a
decoded `Response` from the daemon. -/
inductive IPCOutcome where
  | transportFailure (msg : String)
  | decoded (resp : Response)

/-- Unmarshalling one JSON object field into a `SendTextResult` under
Go's `encoding/json` rules for a struct with string fields `to` and
`msg_id`: a string value assigns the field, `null` is a no-op, a value of
any other type is a type error, and unknown keys are ignored. -/
def assignResultField (acc : SendTextResult) (kv : String × JSONValue) :
    Except String SendTextResult :=
  if kv.1 = "to" then
    match kv.2 with
    | .str s => .ok { acc with «to» := s }
    | .null => .ok acc
    | _ => .error "json: cannot unmarshal value into field SendTextResult.to"
  else if kv.1 = "msg_id" then
    match kv.2 with
    | .str s => .ok { acc with msgID := s }
    | .null => .ok acc
    | _ => .error "json: cannot unmarshal value into field SendTextResult.msg_id"
  else .ok acc

/-- `json.Marshal(resp.Data)` followed by `json.Unmarshal` into a
`SendTextResult` (`Client.SendText`, `internal/ipc/ipc.go` lines
251–256): an absent or `null` data value leaves the zero struct, an
object is folded field by field, and any other top-level value is a type
error. -/
def unmarshalSendTextResult : Option JSONValue → Except String SendTextResult
  | none => .ok { «to» := "", msgID := "" }
  | some .null => .ok { «to» := "", msgID := "" }
  | some (.obj fields) => fields.foldlM assignResultField { «to» := "", msgID := "" }
  | some _ => .error "json: cannot unmarshal value into Go value of type ipc.SendTextResult"

/-- `Client.SendText` (`internal/ipc/ipc.go` lines 235–259) after
`Client.send` produced `outcome`, as the Go pair (result pointer, error):
transport errors pass through, a decoded failure becomes an error carrying
the daemon's message, and a decoded success is unmarshalled into the typed
result — a parse failure yields a `"parse response: "` error and no
result. -/
def clientSendText (outcome : IPCOutcome) : Option SendTextResult × Option String :=
  match outcome with
  | .transportFailure msg => (none, some msg)
  | .decoded resp =>
    if resp.success = false then (none, some resp.error)
    else
      match unmarshalSendTextResult resp.data with
      | .error e => (none, some ("parse response: " ++ e))
      | .ok r => (some r, none)

/-- `Client.DeleteMessage` / `Client.ChatState` / `Client.Ping`
(`internal/ipc/ipc.go`): helpers that carry no typed result — a transport
error passes through and a decoded failure becomes an error carrying the
daemon's message. -/
def clientErrOnly (outcome : IPCOutcome) : Option String :=
  match outcome with
  | .transportFailure msg => some msg
  | .decoded resp => if resp.success = false then some resp.error else none

/-- C10: `Client.SendText` can fail even on a daemon `success=true`
response — whenever the data field does not unmarshal into the
`{to, msg_id}` shape it returns a `"parse response"` error and no result —
and whenever it returns a nil error it returns a (non-nil) typed result. -/
theorem clientSendText_parse (resp : Response) (outcome : IPCOutcome)
    (hsucc : resp.success = true) :
    (∀ e, unmarshalSendTextResult resp.data = .error e →
      clientSendText (.decoded resp) = (none, some ("parse response: " ++ e)))
    ∧ ((clientSendText outcome).2 = none → ∃ r, (clientSendText outcome).1 = some r) := by
  constructor
  · intro e he
    simp [clientSendText, hsucc, he]
  · intro hnone
    cases outcome with
    | transportFailure msg => simp [clientSendText] at hnone
    | decoded r =>
      by_cases hr : r.success = false
      · simp [clientSendText, hr] at hnone
      · cases hu : unmarshalSendTextResult r.data with
        | error e => simp [clientSendText, hr, hu] at hnone
        | ok v => exact ⟨v, by simp [clientSendText, hr, hu]⟩

/-- A daemon success reply whose data is the string `"pong"` — not a
`{to, msg_id}` object. -/
def pongReply : Response := { success := true, data := some (.str "pong") }

/-- A daemon success reply with well-shaped `send_text` data. -/
def sendReply : Response :=
  { success := true,
    data := some (.obj [("to", .str "4915112345678"), ("msg_id", .str "ABC123")]) }

/-- Witness for `clientSendText_parse`: a daemon reply `success=true` with
data `"pong"` (a string, not a `{to, msg_id}` object) makes the helper
return a parse error, and a well-shaped reply yields a result with nil
error. -/
theorem clientSendText_parse_witness :
    clientSendText (.decoded pongReply) =
      (none, some ("parse response: " ++
        "json: cannot unmarshal value into Go value of type ipc.SendTextResult"))
    ∧ ∃ r, (clientSendText (.decoded sendReply)).1 = some r := by
  constructor
  · exact (clientSendText_parse pongReply (.transportFailure "x") rfl).1 _ rfl
  · exact (clientSendText_parse sendReply (.decoded sendReply) rfl).2 rfl

/-! ## The fallback coordinator at the mutating entry points -/

/-- How a mutating command invocation ends up performing its work. -/
inductive CmdPath where
  | usageFailure
  | viaIPC
  | viaDirect
deriving Repr, DecidableEq

/-- The path decision of `newSendTextCmd`'s `RunE`: flag validation, then
— unless `--no-ipc` — if the socket file exists, try `client.SendText`;
only a nil error finishes via IPC, any error (transport or decoded
failure alike) falls through to direct mode. -/
def sendTextCmdPath («to» message : String) (noIPC available : Bool)
    (outcome : IPCOutcome) : CmdPath :=
  if «to» = "" ∨ message = "" then .usageFailure
  else if noIPC = false ∧ available = true then
    match (clientSendText outcome).2 with
    | none => .viaIPC
    | some _ => .viaDirect
  else .viaDirect

/-- The path decision of `newDeleteMessageCmd`'s `RunE`
(`cmd/wacli/delete.go` lines 34–67): same pattern over
`client.DeleteMessage`. -/
def deleteMessageCmdPath (chat msgID : String) (noIPC available : Bool)
    (outcome : IPCOutcome) : CmdPath :=
  if chat = "" ∨ msgID = "" then .usageFailure
  else if noIPC = false ∧ available = true then
    match clientErrOnly outcome with
    | none => .viaIPC
    | some _ => .viaDirect
  else .viaDirect

/-- Go's `strings.TrimSpace`: drop leading and trailing whitespace. -/
def goTrimSpace (s : String) : String :=
  ⟨((s.data.dropWhile Char.isWhitespace).reverse.dropWhile Char.isWhitespace).reverse⟩

/-- The path decision of `newChatStateCmd`'s `RunE`: same pattern over
`client.ChatState`, with the whitespace-trimmed JID usage check. -/
def chatStateCmdPath (jidStr : String) (noIPC available : Bool)
    (outcome : IPCOutcome) : CmdPath :=
  if goTrimSpace jidStr = "" then .usageFailure
  else if noIPC = false ∧ available = true then
    match clientErrOnly outcome with
    | none => .viaIPC
    | some _ => .viaDirect
  else .viaDirect

/-- C1 counterexample: at each of the three mutating entry points, a
decoded `success=false` answer from a live daemon (here the daemon's own
domain error) does trigger the direct-path fallback — the operation is
retried via direct mode, contrary to the claim that only transport errors
do so. -/
theorem decoded_failure_triggers_direct :
    sendTextCmdPath "4915112345678" "hi" false true
      (.decoded { success := false, error := "whatsapp not connected" }) = .viaDirect
    ∧ deleteMessageCmdPath "c@s.whatsapp.net" "ABC123" false true
      (.decoded { success := false, error := "whatsapp not connected" }) = .viaDirect
    ∧ chatStateCmdPath "c@s.whatsapp.net" false true
      (.decoded { success := false, error := "whatsapp not connected" }) = .viaDirect := by
  refine ⟨?_, ?_, ?_⟩ <;> rfl

/-- C1 amended: at every mutating entry point the IPC path is taken iff
the flags pass validation, IPC is not disabled, the socket file exists,
and the proxy call returns a nil error; every proxy-call failure —
transport error and decoded `success=false` alike — falls through to the
direct path. -/
theorem fallback_policy («to» message chat msgID jidStr : String)
    (noIPC available : Bool) (o₁ o₂ o₃ : IPCOutcome) :
    (sendTextCmdPath «to» message noIPC available o₁ = .viaIPC ↔
      («to» ≠ "" ∧ message ≠ "" ∧ noIPC = false ∧ available = true ∧
        (clientSendText o₁).2 = none))
    ∧ (deleteMessageCmdPath chat msgID noIPC available o₂ = .viaIPC ↔
      (chat ≠ "" ∧ msgID ≠ "" ∧ noIPC = false ∧ available = true ∧
        clientErrOnly o₂ = none))
    ∧ (chatStateCmdPath jidStr noIPC available o₃ = .viaIPC ↔
      (goTrimSpace jidStr ≠ "" ∧ noIPC = false ∧ available = true ∧
        clientErrOnly o₃ = none)) := by
  refine ⟨?_, ?_, ?_⟩
  · unfold sendTextCmdPath
    split
    · next hv =>
      simp only [iff_def]
      constructor
      · intro hfalse; exact absurd hfalse (by decide)
      · rintro ⟨h1, h2, -⟩; rcases hv with hv | hv <;> simp_all
    · next hv =>
      push_neg at hv
      split
      · next hcond =>
        cases he : (clientSendText o₁).2 <;>
          simp [he, hv.1, hv.2, hcond.1, hcond.2]
      · next hcond =>
        constructor
        · intro hfalse; exact absurd hfalse (by decide)
        · rintro ⟨-, -, h3, h4, -⟩; exact absurd ⟨h3, h4⟩ hcond
  · unfold deleteMessageCmdPath
    split
    · next hv =>
      constructor
      · intro hfalse; exact absurd hfalse (by decide)
      · rintro ⟨h1, h2, -⟩; rcases hv with hv | hv <;> simp_all
    · next hv =>
      push_neg at hv
      split
      · next hcond =>
        cases he : clientErrOnly o₂ <;>
          simp [he, hv.1, hv.2, hcond.1, hcond.2]
      · next hcond =>
        constructor
        · intro hfalse; exact absurd hfalse (by decide)
        · rintro ⟨-, -, h3, h4, -⟩; exact absurd ⟨h3, h4⟩ hcond
  · unfold chatStateCmdPath
    split
    · next hv =>
      constructor
      · intro hfalse; exact absurd hfalse (by decide)
      · rintro ⟨h1, -⟩; exact absurd hv h1
    · next hv =>
      split
      · next hcond =>
        cases he : clientErrOnly o₃ <;>
          simp [he, hv, hcond.1, hcond.2]
      · next hcond =>
        constructor
        · intro hfalse; exact absurd hfalse (by decide)
        · rintro ⟨-, h3, h4, -⟩; exact absurd ⟨h3, h4⟩ hcond

/-! ## Wire codec: Request marshalling and the roundtrip property -/

/-- A string field under `omitempty`: emitted only when non-empty. -/
def optStrField (k s : String) : List (String × JSONValue) :=
  if s = "" then [] else [(k, .str s)]

/-- A bool field under `omitempty`: emitted only when true. -/
def optBoolField (k : String) (b : Bool) : List (String × JSONValue) :=
  if b = false then [] else [(k, .bool b)]

/-- The JSON object fields `json.Marshal` emits for a `Request`, in struct
declaration order: `command` always, every other field under
`omitempty`. -/
def marshalRequestFields (r : Request) : List (String × JSONValue) :=
  [("command", JSONValue.str r.command)]
    ++ optStrField "to" r.«to»
    ++ optStrField "message" r.message
    ++ optStrField "file" r.file
    ++ optStrField "caption" r.caption
    ++ optStrField "chat" r.chat
    ++ optStrField "msg_id" r.msgID
    ++ optBoolField "for_everyone" r.forEveryone
    ++ optStrField "action" r.action
    ++ optStrField "duration" r.duration

/-- `json.Marshal` of a `Request`, as the emitted JSON object. -/
def marshalRequest (r : Request) : JSONValue := .obj (marshalRequestFields r)

/-- Key lookup in a JSON object's field list (first match). -/
def jlookup (k : String) : List (String × JSONValue) → Option JSONValue
  | [] => none
  | (k', v) :: rest => if k' = k then some v else jlookup k rest

/-- Go unmarshalling of one string field: absent or `null` leaves the zero
value, a string assigns, any other type is a type error. -/
def getStrField (fields : List (String × JSONValue)) (k : String) : Except String String :=
  match jlookup k fields with
  | none => .ok ""
  | some (.str s) => .ok s
  | some .null => .ok ""
  | some _ => .error ("json: cannot unmarshal value into field Request." ++ k)

/-- Go unmarshalling of one bool field. -/
def getBoolField (fields : List (String × JSONValue)) (k : String) : Except String Bool :=
  match jlookup k fields with
  | none => .ok false
  | some (.bool b) => .ok b
  | some .null => .ok false
  | some _ => .error ("json: cannot unmarshal value into field Request." ++ k)

/-- `json.Unmarshal` of a JSON value into a `Request`: the top level must
be an object (or `null`, which leaves the zero value), and each known key
must carry a value of the field's type. -/
def unmarshalRequest (v : JSONValue) : Except String Request :=
  match v with
  | .null => .ok { command := "" }
  | .obj fields =>
    match getStrField fields "command", getStrField fields "to",
          getStrField fields "message", getStrField fields "file",
          getStrField fields "caption", getStrField fields "chat",
          getStrField fields "msg_id", getBoolField fields "for_everyone",
          getStrField fields "action", getStrField fields "duration" with
    | .ok command, .ok toV, .ok message, .ok file, .ok caption, .ok chat,
      .ok msgID, .ok forEveryone, .ok action, .ok duration =>
      .ok { command := command, «to» := toV, message := message, file := file,
            caption := caption, chat := chat, msgID := msgID,
            forEveryone := forEveryone, action := action, duration := duration }
    | _, _, _, _, _, _, _, _, _, _ =>
      .error "json: cannot unmarshal request"
  | _ => .error "json: cannot unmarshal value into Go value of type ipc.Request"

lemma jlookup_optStr_ne (k k' s : String) (rest : List (String × JSONValue))
    (h : k' ≠ k) : jlookup k (optStrField k' s ++ rest) = jlookup k rest := by
  unfold optStrField
  split <;> simp [jlookup, h]

lemma jlookup_optBool_ne (k k' : String) (b : Bool) (rest : List (String × JSONValue))
    (h : k' ≠ k) : jlookup k (optBoolField k' b ++ rest) = jlookup k rest := by
  unfold optBoolField
  split <;> simp [jlookup, h]

lemma jlookup_optStr_self (k s : String) (rest : List (String × JSONValue)) :
    jlookup k (optStrField k s ++ rest) =
      if s = "" then jlookup k rest else some (.str s) := by
  unfold optStrField
  split <;> simp_all [jlookup]

lemma jlookup_optBool_self (k : String) (b : Bool) (rest : List (String × JSONValue)) :
    jlookup k (optBoolField k b ++ rest) =
      if b = false then jlookup k rest else some (.bool b) := by
  unfold optBoolField
  split <;> simp_all [jlookup]

lemma jlookup_optStr_ne_nil (k k' s : String) (h : k' ≠ k) :
    jlookup k (optStrField k' s) = none := by
  unfold optStrField
  split <;> simp [jlookup, h]

lemma jlookup_optBool_ne_nil (k k' : String) (b : Bool) (h : k' ≠ k) :
    jlookup k (optBoolField k' b) = none := by
  unfold optBoolField
  split <;> simp [jlookup, h]

lemma jlookup_optStr_self_nil (k s : String) :
    jlookup k (optStrField k s) = if s = "" then none else some (.str s) := by
  unfold optStrField
  split <;> simp_all [jlookup]

lemma jlookup_optBool_self_nil (k : String) (b : Bool) :
    jlookup k (optBoolField k b) = if b = false then none else some (.bool b) := by
  unfold optBoolField
  split <;> simp_all [jlookup]

lemma getStr_roundtrip_command (r : Request) :
    getStrField (marshalRequestFields r) "command" = .ok r.command := by
  simp [getStrField, marshalRequestFields, jlookup]

lemma getStr_roundtrip_to (r : Request) :
    getStrField (marshalRequestFields r) "to" = .ok r.«to» := by
  by_cases h : r.«to» = "" <;>
    simp [getStrField, marshalRequestFields, jlookup, jlookup_optStr_ne,
      jlookup_optBool_ne, jlookup_optStr_self, jlookup_optStr_ne_nil,
      jlookup_optBool_ne_nil, jlookup_optStr_self_nil, h]

lemma getStr_roundtrip_message (r : Request) :
    getStrField (marshalRequestFields r) "message" = .ok r.message := by
  by_cases h : r.message = "" <;>
    simp [getStrField, marshalRequestFields, jlookup, jlookup_optStr_ne,
      jlookup_optBool_ne, jlookup_optStr_self, jlookup_optStr_ne_nil,
      jlookup_optBool_ne_nil, jlookup_optStr_self_nil, h]

lemma getStr_roundtrip_file (r : Request) :
    getStrField (marshalRequestFields r) "file" = .ok r.file := by
  by_cases h : r.file = "" <;>
    simp [getStrField, marshalRequestFields, jlookup, jlookup_optStr_ne,
      jlookup_optBool_ne, jlookup_optStr_self, jlookup_optStr_ne_nil,
      jlookup_optBool_ne_nil, jlookup_optStr_self_nil, h]

lemma getStr_roundtrip_caption (r : Request) :
    getStrField (marshalRequestFields r) "caption" = .ok r.caption := by
  by_cases h : r.caption = "" <;>
    simp [getStrField, marshalRequestFields, jlookup, jlookup_optStr_ne,
      jlookup_optBool_ne, jlookup_optStr_self, jlookup_optStr_ne_nil,
      jlookup_optBool_ne_nil, jlookup_optStr_self_nil, h]

lemma getStr_roundtrip_chat (r : Request) :
    getStrField (marshalRequestFields r) "chat" = .ok r.chat := by
  by_cases h : r.chat = "" <;>
    simp [getStrField, marshalRequestFields, jlookup, jlookup_optStr_ne,
      jlookup_optBool_ne, jlookup_optStr_self, jlookup_optStr_ne_nil,
      jlookup_optBool_ne_nil, jlookup_optStr_self_nil, h]

lemma getStr_roundtrip_msg_id (r : Request) :
    getStrField (marshalRequestFields r) "msg_id" = .ok r.msgID := by
  by_cases h : r.msgID = "" <;>
    simp [getStrField, marshalRequestFields, jlookup, jlookup_optStr_ne,
      jlookup_optBool_ne, jlookup_optStr_self, jlookup_optStr_ne_nil,
      jlookup_optBool_ne_nil, jlookup_optStr_self_nil, h]

lemma getBool_roundtrip_for_everyone (r : Request) :
    getBoolField (marshalRequestFields r) "for_everyone" = .ok r.forEveryone := by
  by_cases h : r.forEveryone = false <;>
    simp [getBoolField, marshalRequestFields, jlookup, jlookup_optStr_ne,
      jlookup_optBool_ne, jlookup_optBool_self, jlookup_optStr_ne_nil,
      jlookup_optBool_ne_nil, jlookup_optBool_self_nil, h]

lemma getStr_roundtrip_action (r : Request) :
    getStrField (marshalRequestFields r) "action" = .ok r.action := by
  by_cases h : r.action = "" <;>
    simp [getStrField, marshalRequestFields, jlookup, jlookup_optStr_ne,
      jlookup_optBool_ne, jlookup_optStr_self, jlookup_optStr_ne_nil,
      jlookup_optBool_ne_nil, jlookup_optStr_self_nil, h]

lemma getStr_roundtrip_duration (r : Request) :
    getStrField (marshalRequestFields r) "duration" = .ok r.duration := by
  by_cases h : r.duration = "" <;>
    simp [getStrField, marshalRequestFields, jlookup, jlookup_optStr_ne,
      jlookup_optBool_ne, jlookup_optStr_self, jlookup_optStr_ne_nil,
      jlookup_optBool_ne_nil, jlookup_optStr_self_nil, h]

/-- C7: encode→decode round-trips every `Request` to an equal value, for
every combination of present and absent optional fields (absent fields
re-decode as their zero values, which is how they were encoded away). -/
theorem marshal_unmarshal_request (r : Request) :
    unmarshalRequest (marshalRequest r) = .ok r := by
  obtain ⟨c, t, m, f, cp, ch, mi, fe, ac, du⟩ := r
  rw [show marshalRequest ⟨c, t, m, f, cp, ch, mi, fe, ac, du⟩ =
    .obj (marshalRequestFields ⟨c, t, m, f, cp, ch, mi, fe, ac, du⟩) from rfl]
  rw [unmarshalRequest]
  rw [getStr_roundtrip_command, getStr_roundtrip_to, getStr_roundtrip_message,
    getStr_roundtrip_file, getStr_roundtrip_caption, getStr_roundtrip_chat,
    getStr_roundtrip_msg_id, getBool_roundtrip_for_everyone,
    getStr_roundtrip_action, getStr_roundtrip_duration]

end Wacli
